import Mathlib

/-!
Shallow embedding of the Concordium "giveaway" contract (src/src/lib.rs).

Machine integers: `Amount` is a u64 number of microGTU and `factor` is a u8
widened to u64 before arithmetic; we model both as `Nat` and make every u64
operation wrap explicitly modulo 2^64 (`add64`, `mul64`, `sub64`), which is
the behaviour of the compiled (release-mode / Wasm) contract.  Account
addresses are opaque identities modelled as `Nat`; the host's `Address` sum
type (account or contract) is reproduced because `topup` inspects it.  The
senders `BTreeSet<AccountAddress>` becomes a `Finset Nat`.  Parameter
deserialization is external: an init context carries `Option Config`, with
`none` standing for a cursor whose bytes do not parse.
-/

namespace Giveaway

/-- Size of the u64 value space: 2^64. -/
def U64 : Nat := 2 ^ 64

/-- Reduction of a natural number into the u64 value space. -/
def wrap64 (n : Nat) : Nat := n % U64

/-- Wrapping u64 addition, the behaviour of `Amount + Amount` in the source. -/
def add64 (a b : Nat) : Nat := wrap64 (a + b)

/-- Wrapping u64 multiplication, the behaviour of `Amount * u64` in the source. -/
def mul64 (a b : Nat) : Nat := wrap64 (a * b)

/-- Wrapping u64 subtraction, the behaviour of `factor - 1` on u64 in the source. -/
def sub64 (a b : Nat) : Nat := wrap64 (wrap64 a + U64 - wrap64 b)

/-- Contract configuration: `struct Config { factor: u8, max_giveaway: Amount }`. -/
structure Config where
  factor : Nat
  max_giveaway : Nat
deriving DecidableEq, Repr

/-- Contract state: `struct State { config: Config, senders: BTreeSet<AccountAddress> }`. -/
structure State where
  config : Config
  senders : Finset Nat
deriving DecidableEq

/-- Error type of `giveaway_init`: `enum InitError`. -/
inductive InitError where
  | ParseParams
  | ZeroAmount
  | FactorBelowTwo
  | ZeroMaxGiveaway
deriving DecidableEq, Repr

/-- Error type of the receive entry points: `enum ReceiveError`. -/
inductive ReceiveError where
  | ParseParams
  | ZeroAmount
  | ZeroBalance
  | DoubleSend
  | NotOwner
deriving DecidableEq, Repr

/-- The host's `Address` sum type: an account address or a contract address. -/
inductive Address where
  | account (addr : Nat)
  | contract (index : Nat) (subindex : Nat)
deriving DecidableEq, Repr

/-- Actions a receive entry point can request from the host
(`A::accept()` and `A::simple_transfer(&addr, amount)`). -/
inductive Action where
  | accept
  | simple_transfer (recipient : Nat) (amount : Nat)
deriving DecidableEq, Repr

/-- Init context: the parameter cursor is modelled by the `Config` it holds,
or `none` when its bytes do not deserialize to a `Config`. -/
structure InitContext where
  parameter : Option Config
deriving DecidableEq

/-- Receive context: invoker account, transaction sender, contract owner and
the contract's current balance (credited with the incoming amount, per the
host runtime's convention). -/
structure ReceiveContext where
  invoker : Nat
  sender : Address
  owner : Nat
  self_balance : Nat
deriving DecidableEq

/-- The host's `Address::matches_account`: true exactly when the address is an
account address equal to the given account. -/
def Address.matches_account : Address → Nat → Bool
  | Address.account a, acc => a = acc
  | Address.contract _ _, _ => false

/-- Embedding of `giveaway_init` (src/src/lib.rs lines 48-66): validate
amount ≠ 0, parse the `Config` parameter, validate factor ≥ 2 and
max_giveaway ≠ 0 in that order, and produce `State { config, senders: ∅ }`. -/
def giveaway_init (ctx : InitContext) (amount : Nat) : Except InitError State :=
  if amount = 0 then Except.error InitError.ZeroAmount
  else
    match ctx.parameter with
    | none => Except.error InitError.ParseParams
    | some config =>
      if config.factor < 2 then Except.error InitError.FactorBelowTwo
      else if config.max_giveaway = 0 then Except.error InitError.ZeroMaxGiveaway
      else Except.ok { config := config, senders := ∅ }

/-- The `expected_return` computation of `giveaway_send` (lines 75-81):
`factor` is the u8 widened to u64; if `amount > max_giveaway` the result is
`amount + max_giveaway * (factor - 1)`, otherwise `amount * factor`, all in
wrapping u64 arithmetic. -/
def expected_return (config : Config) (amount : Nat) : Nat :=
  if config.max_giveaway < amount then
    add64 amount (mul64 config.max_giveaway (sub64 config.factor 1))
  else
    mul64 amount config.factor

/-- The `actual_return` computation of `giveaway_send` (line 84):
`cmp::min(balance + amount, expected_return)` in u64 arithmetic. -/
def actual_return (config : Config) (balance amount : Nat) : Nat :=
  min (add64 balance amount) (expected_return config amount)

/-- Embedding of `giveaway_send` (lines 68-93).  The Rust function mutates
`state: &mut State` and returns `Result<A, ReceiveError>`; we return the pair
of the result and the state after the call.  Guard order as in the source:
ZeroAmount, then ZeroBalance (`actual_return == amount`), then DoubleSend,
then insert the invoker and request the transfer. -/
def giveaway_send (ctx : ReceiveContext) (amount : Nat) (state : State) :
    Except ReceiveError Action × State :=
  if amount = 0 then (Except.error ReceiveError.ZeroAmount, state)
  else if actual_return state.config ctx.self_balance amount = amount then
    (Except.error ReceiveError.ZeroBalance, state)
  else if ctx.invoker ∈ state.senders then
    (Except.error ReceiveError.DoubleSend, state)
  else
    (Except.ok (Action.simple_transfer ctx.invoker
        (actual_return state.config ctx.self_balance amount)),
     { state with senders := insert ctx.invoker state.senders })

/-- Embedding of `giveaway_topup` (lines 95-106): only a sender matching the
owner's account may top up; the state is never touched. -/
def giveaway_topup (ctx : ReceiveContext) (_amount : Nat) (state : State) :
    Except ReceiveError Action × State :=
  if ctx.sender.matches_account ctx.owner then (Except.ok Action.accept, state)
  else (Except.error ReceiveError.NotOwner, state)

/-- Embedding of `giveaway_abort` (lines 108-118): only the owner (invoker
equal to owner) may abort; on success request a transfer of the whole current
balance to the invoker; the state is never touched. -/
def giveaway_abort (ctx : ReceiveContext) (_amount : Nat) (state : State) :
    Except ReceiveError Action × State :=
  if ctx.invoker = ctx.owner then
    (Except.ok (Action.simple_transfer ctx.invoker ctx.self_balance), state)
  else (Except.error ReceiveError.NotOwner, state)

/-- The exact (unbounded) mathematical value of the `expected_return` formula,
used to compare the code's 64-bit computation with exact arithmetic. -/
def exact_expected_return (factor max_giveaway amount : Nat) : Nat :=
  if max_giveaway < amount then amount + max_giveaway * (factor - 1)
  else amount * factor

/-- Success test on a receive result. -/
def isOk : Except ReceiveError Action → Bool
  | Except.ok _ => true
  | Except.error _ => false

/-- Number of successful `send` calls whose invoker is `a` along a sequence of
calls, threading the state left to right. -/
def countSuccessesBy (a : Nat) : State → List (ReceiveContext × Nat) → Nat
  | _, [] => 0
  | s, (ctx, amount) :: rest =>
      (if ctx.invoker = a ∧ isOk (giveaway_send ctx amount s).1 = true then 1 else 0) +
      countSuccessesBy a (giveaway_send ctx amount s).2 rest

/-- Case split on a `send` call: either it fails and leaves the state intact,
or it succeeds, the invoker was fresh, and the invoker gets inserted. -/
theorem send_result (ctx : ReceiveContext) (amount : Nat) (s : State) :
    ((giveaway_send ctx amount s).2 = s ∧ isOk (giveaway_send ctx amount s).1 = false) ∨
    ((giveaway_send ctx amount s).2.senders = insert ctx.invoker s.senders ∧
      ctx.invoker ∉ s.senders ∧ isOk (giveaway_send ctx amount s).1 = true) := by
  unfold giveaway_send
  split_ifs <;> simp_all [isOk]

/-- A `send` call never changes the configuration. -/
theorem send_config (ctx : ReceiveContext) (amount : Nat) (s : State) :
    ((giveaway_send ctx amount s).2).config = s.config := by
  unfold giveaway_send
  split_ifs <;> rfl

/-- Membership in `senders` is preserved by any `send` call. -/
theorem mem_send_senders (ctx : ReceiveContext) (amount : Nat) (s : State) (a : Nat)
    (h : a ∈ s.senders) : a ∈ ((giveaway_send ctx amount s).2).senders := by
  rcases send_result ctx amount s with ⟨h2, _⟩ | ⟨h2, _, _⟩
  · rw [h2]; exact h
  · rw [h2]; exact Finset.mem_insert_of_mem h

/-- A `send` call by an invoker already recorded in `senders` fails and leaves
the state unchanged. -/
theorem send_mem_fails (ctx : ReceiveContext) (amount : Nat) (s : State)
    (h : ctx.invoker ∈ s.senders) :
    isOk (giveaway_send ctx amount s).1 = false ∧ (giveaway_send ctx amount s).2 = s := by
  rcases send_result ctx amount s with ⟨h2, hok⟩ | ⟨_, hfresh, _⟩
  · exact ⟨hok, h2⟩
  · exact absurd h hfresh

/-- A failing `send` leaves the state unchanged. -/
theorem send_error_state (ctx : ReceiveContext) (amount : Nat) (s : State)
    (e : ReceiveError) (h : (giveaway_send ctx amount s).1 = Except.error e) :
    (giveaway_send ctx amount s).2 = s := by
  rcases send_result ctx amount s with ⟨h2, _⟩ | ⟨_, _, hok⟩
  · exact h2
  · rw [h] at hok; simp [isOk] at hok

/-- Once an address is in `senders`, no further `send` in any sequence of
calls succeeds for it. -/
theorem countSuccessesBy_mem (a : Nat) (s : State) (calls : List (ReceiveContext × Nat))
    (h : a ∈ s.senders) : countSuccessesBy a s calls = 0 := by
  induction calls generalizing s with
  | nil => rfl
  | cons hd tl ih =>
    obtain ⟨ctx, amount⟩ := hd
    simp only [countSuccessesBy]
    rw [ih _ (mem_send_senders ctx amount s a h)]
    by_cases hi : ctx.invoker = a
    · have hfail := (send_mem_fails ctx amount s (hi ▸ h)).1
      simp [hfail]
    · simp [hi]

/-- An address not yet in `senders` succeeds at most once along any sequence
of `send` calls. -/
theorem countSuccessesBy_le_one (a : Nat) (s : State) (calls : List (ReceiveContext × Nat))
    (h : a ∉ s.senders) : countSuccessesBy a s calls ≤ 1 := by
  induction calls generalizing s with
  | nil => simp [countSuccessesBy]
  | cons hd tl ih =>
    obtain ⟨ctx, amount⟩ := hd
    simp only [countSuccessesBy]
    by_cases hc : ctx.invoker = a ∧ isOk (giveaway_send ctx amount s).1 = true
    · obtain ⟨hi, hok⟩ := hc
      have hmem : a ∈ ((giveaway_send ctx amount s).2).senders := by
        rcases send_result ctx amount s with ⟨_, hko⟩ | ⟨h2, _, _⟩
        · rw [hok] at hko; exact absurd hko (by simp)
        · rw [h2, hi]; exact Finset.mem_insert_self a s.senders
      rw [countSuccessesBy_mem a _ tl hmem]
      simp [hi, hok]
    · have hnot : a ∉ ((giveaway_send ctx amount s).2).senders := by
        rcases send_result ctx amount s with ⟨h2, _⟩ | ⟨h2, hfresh, hok⟩
        · rw [h2]; exact h
        · rw [h2]
          intro hin
          rcases Finset.mem_insert.mp hin with heq | hs
          · exact hc ⟨heq.symm, hok⟩
          · exact h hs
      have := ih _ hnot
      simp only [if_neg hc, Nat.zero_add]
      exact this

/-- C3: `init` succeeds if and only if amount ≠ 0, the `Config` parameter
deserializes, factor ≥ 2 and max_giveaway ≠ 0; on success it produces
`State {config, senders = ∅}`; on failure it returns the error of the first
violated condition in the order ZeroAmount, ParseParams, FactorBelowTwo,
ZeroMaxGiveaway, and no state is produced. -/
theorem claim3_init_validation (ctx : InitContext) (amount : Nat) :
    (amount = 0 → giveaway_init ctx amount = Except.error InitError.ZeroAmount) ∧
    (amount ≠ 0 → ctx.parameter = none →
      giveaway_init ctx amount = Except.error InitError.ParseParams) ∧
    (∀ c, amount ≠ 0 → ctx.parameter = some c → c.factor < 2 →
      giveaway_init ctx amount = Except.error InitError.FactorBelowTwo) ∧
    (∀ c, amount ≠ 0 → ctx.parameter = some c → 2 ≤ c.factor → c.max_giveaway = 0 →
      giveaway_init ctx amount = Except.error InitError.ZeroMaxGiveaway) ∧
    (∀ c, amount ≠ 0 → ctx.parameter = some c → 2 ≤ c.factor → c.max_giveaway ≠ 0 →
      giveaway_init ctx amount = Except.ok { config := c, senders := ∅ }) ∧
    ((∃ s, giveaway_init ctx amount = Except.ok s) ↔
      amount ≠ 0 ∧ ∃ c, ctx.parameter = some c ∧ 2 ≤ c.factor ∧ c.max_giveaway ≠ 0) := by
  unfold giveaway_init
  rcases ctx with ⟨_ | c⟩ <;>
    simp only [InitContext.parameter] <;>
    split_ifs <;>
    simp_all

/-- Witness for C3: a concrete well-formed creation call succeeds and yields
the expected fresh state. -/
theorem claim3_init_validation_witness :
    giveaway_init { parameter := some { factor := 3, max_giveaway := 10 } } 100 =
      Except.ok { config := { factor := 3, max_giveaway := 10 }, senders := ∅ } :=
  (claim3_init_validation { parameter := some { factor := 3, max_giveaway := 10 } }
      100).2.2.2.2.1
    { factor := 3, max_giveaway := 10 } (by decide) rfl (by decide) (by decide)

/-- C4: whenever `send`, `topup` or `abort` returns an error, the state after
the call equals the state before the call. -/
theorem claim4_errors_leave_state_unchanged :
    (∀ (ctx : ReceiveContext) (amount : Nat) (s : State) (e : ReceiveError),
      (giveaway_send ctx amount s).1 = Except.error e → (giveaway_send ctx amount s).2 = s) ∧
    (∀ (ctx : ReceiveContext) (amount : Nat) (s : State) (e : ReceiveError),
      (giveaway_topup ctx amount s).1 = Except.error e → (giveaway_topup ctx amount s).2 = s) ∧
    (∀ (ctx : ReceiveContext) (amount : Nat) (s : State) (e : ReceiveError),
      (giveaway_abort ctx amount s).1 = Except.error e → (giveaway_abort ctx amount s).2 = s) := by
  refine ⟨fun ctx amount s e h => send_error_state ctx amount s e h, ?_, ?_⟩ <;>
  · intro ctx amount s e _
    first
      | unfold giveaway_topup
      | unfold giveaway_abort
    split_ifs <;> rfl

/-- Witness for C4: a concrete `send` with zero attached amount errors and
leaves the concrete state intact. -/
theorem claim4_errors_leave_state_unchanged_witness :
    (giveaway_send { invoker := 1, sender := Address.account 1, owner := 0, self_balance := 100 }
        0 { config := { factor := 2, max_giveaway := 10 }, senders := ∅ }).2 =
      { config := { factor := 2, max_giveaway := 10 }, senders := ∅ } :=
  claim4_errors_leave_state_unchanged.1
    { invoker := 1, sender := Address.account 1, owner := 0, self_balance := 100 } 0
    { config := { factor := 2, max_giveaway := 10 }, senders := ∅ }
    ReceiveError.ZeroAmount rfl

/-- C5: `topup` fails with NotOwner whenever the transaction sender does not
match the owner's account, and `abort` fails with NotOwner whenever the
invoker is not the owner; neither ever succeeds for a non-owner caller, and
the state is returned unchanged. -/
theorem claim5_owner_gating :
    (∀ (ctx : ReceiveContext) (amount : Nat) (s : State),
      Address.matches_account ctx.sender ctx.owner = false →
      giveaway_topup ctx amount s = (Except.error ReceiveError.NotOwner, s)) ∧
    (∀ (ctx : ReceiveContext) (amount : Nat) (s : State),
      ctx.invoker ≠ ctx.owner →
      giveaway_abort ctx amount s = (Except.error ReceiveError.NotOwner, s)) := by
  constructor
  · intro ctx amount s h
    unfold giveaway_topup
    rw [h]
    rfl
  · intro ctx amount s h
    unfold giveaway_abort
    rw [if_neg h]

/-- Witness for C5: a concrete non-owner `topup` (sender is a contract
address) and a concrete non-owner `abort` both fail with NotOwner. -/
theorem claim5_owner_gating_witness :
    giveaway_topup { invoker := 5, sender := Address.contract 7 0, owner := 0, self_balance := 3 }
        4 { config := { factor := 2, max_giveaway := 10 }, senders := ∅ } =
      (Except.error ReceiveError.NotOwner,
        { config := { factor := 2, max_giveaway := 10 }, senders := ∅ }) ∧
    giveaway_abort { invoker := 5, sender := Address.account 5, owner := 0, self_balance := 3 }
        4 { config := { factor := 2, max_giveaway := 10 }, senders := ∅ } =
      (Except.error ReceiveError.NotOwner,
        { config := { factor := 2, max_giveaway := 10 }, senders := ∅ }) :=
  ⟨claim5_owner_gating.1
      { invoker := 5, sender := Address.contract 7 0, owner := 0, self_balance := 3 } 4
      { config := { factor := 2, max_giveaway := 10 }, senders := ∅ } (by decide),
    claim5_owner_gating.2
      { invoker := 5, sender := Address.account 5, owner := 0, self_balance := 3 } 4
      { config := { factor := 2, max_giveaway := 10 }, senders := ∅ } (by decide)⟩

/-- C6: every successful `abort` requests a transfer to the owner of exactly
the contract's current balance, and leaves the whole state (so in particular
`senders` and `config`) unchanged. -/
theorem claim6_abort_drains (ctx : ReceiveContext) (amount : Nat) (s : State) (act : Action)
    (hok : (giveaway_abort ctx amount s).1 = Except.ok act) :
    act = Action.simple_transfer ctx.owner ctx.self_balance ∧
    (giveaway_abort ctx amount s).2 = s := by
  unfold giveaway_abort at hok ⊢
  by_cases h : ctx.invoker = ctx.owner
  · rw [if_pos h] at hok ⊢
    replace hok : Action.simple_transfer ctx.invoker ctx.self_balance = act := by
      simpa using hok
    exact ⟨by rw [← hok, h], rfl⟩
  · rw [if_neg h] at hok
    simp at hok

/-- Witness for C6: a concrete owner-invoked `abort` with balance 42 requests
a transfer of 42 to the owner and keeps the state. -/
theorem claim6_abort_drains_witness :
    Action.simple_transfer 0 42 = Action.simple_transfer 0 42 ∧
    (giveaway_abort { invoker := 0, sender := Address.account 0, owner := 0, self_balance := 42 }
        7 { config := { factor := 2, max_giveaway := 10 }, senders := ∅ }).2 =
      { config := { factor := 2, max_giveaway := 10 }, senders := ∅ } :=
  claim6_abort_drains
    { invoker := 0, sender := Address.account 0, owner := 0, self_balance := 42 } 7
    { config := { factor := 2, max_giveaway := 10 }, senders := ∅ }
    (Action.simple_transfer 0 42) rfl

/-- C10: whenever the invoker equals the owner, `abort` succeeds for every
balance (including zero, transferring zero) and every attached amount, and
the attached amount is never inspected (two calls differing only in the
attached amount behave identically). -/
theorem claim10_abort_owner_total (ctx : ReceiveContext) (amount : Nat) (s : State)
    (h : ctx.invoker = ctx.owner) :
    giveaway_abort ctx amount s =
      (Except.ok (Action.simple_transfer ctx.owner ctx.self_balance), s) ∧
    ∀ amount2, giveaway_abort ctx amount2 s = giveaway_abort ctx amount s := by
  constructor
  · unfold giveaway_abort
    rw [if_pos h, h]
  · intro amount2
    rfl

/-- Witness for C10: a concrete owner-invoked `abort` with zero balance
succeeds and requests a transfer of zero. -/
theorem claim10_abort_owner_total_witness :
    giveaway_abort { invoker := 0, sender := Address.account 0, owner := 0, self_balance := 0 }
        9 { config := { factor := 2, max_giveaway := 10 }, senders := ∅ } =
      (Except.ok (Action.simple_transfer 0 0),
        { config := { factor := 2, max_giveaway := 10 }, senders := ∅ }) :=
  (claim10_abort_owner_total
      { invoker := 0, sender := Address.account 0, owner := 0, self_balance := 0 } 9
      { config := { factor := 2, max_giveaway := 10 }, senders := ∅ } rfl).1

/-- C1: for every state whose factor and max_giveaway come from a successful
init, and every `send` call with amount ≠ 0 by an invoker not in `senders`,
a successful call requests a transfer to the invoker of exactly
actual_return = min(balance + amount, expected_return), where
expected_return = amount + max_giveaway × (factor − 1) when
amount > max_giveaway and expected_return = amount × factor otherwise, with
balance the context's self-balance (all in the source's u64 arithmetic). -/
theorem claim1_send_payout_formula (ictx : InitContext) (iamount : Nat) (s0 : State)
    (_hinit : giveaway_init ictx iamount = Except.ok s0)
    (ctx : ReceiveContext) (amount : Nat) (s : State) (_hcfg : s.config = s0.config)
    (hamt : amount ≠ 0) (hfresh : ctx.invoker ∉ s.senders)
    (act : Action) (hok : (giveaway_send ctx amount s).1 = Except.ok act) :
    act = Action.simple_transfer ctx.invoker
      (min (add64 ctx.self_balance amount)
        (if s.config.max_giveaway < amount then
          add64 amount (mul64 s.config.max_giveaway (sub64 s.config.factor 1))
        else mul64 amount s.config.factor)) := by
  unfold giveaway_send at hok
  rw [if_neg hamt] at hok
  by_cases hz : actual_return s.config ctx.self_balance amount = amount
  · rw [if_pos hz] at hok
    simp at hok
  · rw [if_neg hz, if_neg hfresh] at hok
    replace hok : Action.simple_transfer ctx.invoker
        (actual_return s.config ctx.self_balance amount) = act := by
      simpa using hok
    rw [← hok]
    unfold actual_return expected_return
    rfl

/-- Witness for C1 at the claim's example: factor = 3, max_giveaway = 10,
self-balance = 100, amount = 17 — the successful call transfers 37 to the
invoker, matching the formula. -/
theorem claim1_send_payout_formula_witness :
    Action.simple_transfer 1 37 = Action.simple_transfer 1
      (min (add64 100 17)
        (if (10 : Nat) < 17 then add64 17 (mul64 10 (sub64 3 1)) else mul64 17 3)) :=
  claim1_send_payout_formula { parameter := some { factor := 3, max_giveaway := 10 } } 100
    { config := { factor := 3, max_giveaway := 10 }, senders := ∅ } rfl
    { invoker := 1, sender := Address.account 1, owner := 0, self_balance := 100 } 17
    { config := { factor := 3, max_giveaway := 10 }, senders := ∅ } rfl
    (by decide) (by decide) (Action.simple_transfer 1 37) rfl

/-- C7: `senders` only grows under every operation; a successful `send`
inserts exactly the invoker (who was not yet present); `config` is never
mutated; `topup` and `abort` leave the entire state unchanged even on
success, so `send` is the only operation that mutates the state. -/
theorem claim7_senders_monotone :
    (∀ (ctx : ReceiveContext) (amount : Nat) (s : State),
      s.senders ⊆ ((giveaway_send ctx amount s).2).senders) ∧
    (∀ (ctx : ReceiveContext) (amount : Nat) (s : State) (act : Action),
      (giveaway_send ctx amount s).1 = Except.ok act →
      ((giveaway_send ctx amount s).2).senders = insert ctx.invoker s.senders ∧
      ctx.invoker ∉ s.senders) ∧
    (∀ (ctx : ReceiveContext) (amount : Nat) (s : State),
      ((giveaway_send ctx amount s).2).config = s.config) ∧
    (∀ (ctx : ReceiveContext) (amount : Nat) (s : State),
      (giveaway_topup ctx amount s).2 = s) ∧
    (∀ (ctx : ReceiveContext) (amount : Nat) (s : State),
      (giveaway_abort ctx amount s).2 = s) := by
  refine ⟨?_, ?_, send_config, ?_, ?_⟩
  · intro ctx amount s a ha
    exact mem_send_senders ctx amount s a ha
  · intro ctx amount s act hok
    rcases send_result ctx amount s with ⟨_, hko⟩ | ⟨h2, hfresh, _⟩
    · rw [hok] at hko; exact absurd hko (by simp [isOk])
    · exact ⟨h2, hfresh⟩
  · intro ctx amount s
    unfold giveaway_topup
    split_ifs <;> rfl
  · intro ctx amount s
    unfold giveaway_abort
    split_ifs <;> rfl

/-- Witness for C7: a concrete successful `send` inserts exactly invoker 1
into the previously empty senders set. -/
theorem claim7_senders_monotone_witness :
    ((giveaway_send { invoker := 1, sender := Address.account 1, owner := 0, self_balance := 100 }
        5 { config := { factor := 2, max_giveaway := 10 }, senders := ∅ }).2).senders =
      insert 1 (∅ : Finset Nat) ∧
    (1 : Nat) ∉ (∅ : Finset Nat) :=
  claim7_senders_monotone.2.1
    { invoker := 1, sender := Address.account 1, owner := 0, self_balance := 100 } 5
    { config := { factor := 2, max_giveaway := 10 }, senders := ∅ }
    (Action.simple_transfer 1 10) rfl

/-- C8: for every state and every `send` call with amount ≠ 0, the call
returns ZeroBalance exactly when actual_return = amount; since the right side
never mentions `senders`, the rejection is decided regardless of whether the
invoker is already recorded (the DoubleSend check comes after it). -/
theorem claim8_zero_balance_iff (ctx : ReceiveContext) (amount : Nat) (s : State)
    (hamt : amount ≠ 0) :
    (giveaway_send ctx amount s).1 = Except.error ReceiveError.ZeroBalance ↔
      actual_return s.config ctx.self_balance amount = amount := by
  unfold giveaway_send
  rw [if_neg hamt]
  by_cases hz : actual_return s.config ctx.self_balance amount = amount
  · simp [hz]
  · rw [if_neg hz]
    split_ifs <;> simp [hz]

/-- Witness for C8: with factor = 2, max_giveaway = 10, self-balance = 0 and
amount = 5, actual_return = min(0 + 5, 10) = 5 = amount, and the call fails
with ZeroBalance even though the invoker is already in `senders`. -/
theorem claim8_zero_balance_iff_witness :
    ((giveaway_send { invoker := 1, sender := Address.account 1, owner := 0, self_balance := 0 }
        5 { config := { factor := 2, max_giveaway := 10 }, senders := {1} }).1 =
      Except.error ReceiveError.ZeroBalance ↔
      actual_return { factor := 2, max_giveaway := 10 } 0 5 = 5) :=
  claim8_zero_balance_iff
    { invoker := 1, sender := Address.account 1, owner := 0, self_balance := 0 } 5
    { config := { factor := 2, max_giveaway := 10 }, senders := {1} } (by decide)

/-- Counterexample to C2 as stated: a `send` whose invoker is already in
`senders` does not always fail with DoubleSend — with attached amount 0 the
ZeroAmount guard fires first. -/
theorem claim2_counterexample :
    (1 : Nat) ∈
      ({ config := { factor := 2, max_giveaway := 10 }, senders := {1} } : State).senders ∧
    (giveaway_send { invoker := 1, sender := Address.account 1, owner := 0, self_balance := 100 }
        0 { config := { factor := 2, max_giveaway := 10 }, senders := {1} }).1 =
      Except.error ReceiveError.ZeroAmount ∧
    ReceiveError.ZeroAmount ≠ ReceiveError.DoubleSend :=
  ⟨by decide, rfl, by decide⟩

/-- C2 (amended): a `send` whose invoker is already in `senders` always fails
and leaves the state unchanged; it fails with DoubleSend whenever the earlier
guards pass (amount ≠ 0 and actual_return ≠ amount); consequently, over every
sequence of `send` calls, each address succeeds at most once (and an address
already recorded never succeeds again). -/
theorem claim2_no_double_send :
    (∀ (ctx : ReceiveContext) (amount : Nat) (s : State),
      ctx.invoker ∈ s.senders →
      (giveaway_send ctx amount s).2 = s ∧ isOk (giveaway_send ctx amount s).1 = false) ∧
    (∀ (ctx : ReceiveContext) (amount : Nat) (s : State),
      ctx.invoker ∈ s.senders → amount ≠ 0 →
      actual_return s.config ctx.self_balance amount ≠ amount →
      (giveaway_send ctx amount s).1 = Except.error ReceiveError.DoubleSend) ∧
    (∀ (a : Nat) (s : State) (calls : List (ReceiveContext × Nat)),
      a ∈ s.senders → countSuccessesBy a s calls = 0) ∧
    (∀ (a : Nat) (s : State) (calls : List (ReceiveContext × Nat)),
      a ∉ s.senders → countSuccessesBy a s calls ≤ 1) := by
  refine ⟨?_, ?_, countSuccessesBy_mem, countSuccessesBy_le_one⟩
  · intro ctx amount s h
    exact ⟨(send_mem_fails ctx amount s h).2, (send_mem_fails ctx amount s h).1⟩
  · intro ctx amount s h hamt hz
    unfold giveaway_send
    rw [if_neg hamt, if_neg hz, if_pos h]

/-- Witness for C2 (amended): a concrete repeat `send` with a nonzero amount
and a fundable bonus fails with DoubleSend. -/
theorem claim2_no_double_send_witness :
    (giveaway_send { invoker := 1, sender := Address.account 1, owner := 0, self_balance := 100 }
        5 { config := { factor := 2, max_giveaway := 10 }, senders := {1} }).1 =
      Except.error ReceiveError.DoubleSend :=
  claim2_no_double_send.2.1
    { invoker := 1, sender := Address.account 1, owner := 0, self_balance := 100 } 5
    { config := { factor := 2, max_giveaway := 10 }, senders := {1} }
    (by decide) (by decide) (by decide)

/-- Counterexample to C9 as stated: the widened 64-bit computation of
expected_return does not equal the exact mathematical value for every input —
with amount = max_giveaway = 2^63 and factor = 2 the multiplication
amount × factor wraps to 0 while the exact value is 2^64. -/
theorem claim9_counterexample :
    expected_return { factor := 2, max_giveaway := 2 ^ 63 } (2 ^ 63) ≠
      exact_expected_return 2 (2 ^ 63) (2 ^ 63) := by
  decide

/-- C9 (amended): widening factor to 64 bits makes the computation of
expected_return exact whenever the exact mathematical value fits in 64 bits
(which also covers the widening of `factor − 1` since factor ≥ 1); for larger
values the u64 result wraps modulo 2^64 and differs from the exact value. -/
theorem claim9_widening_exact (cfg : Config) (amount : Nat)
    (h1 : 1 ≤ cfg.factor) (h2 : cfg.factor < U64)
    (h3 : exact_expected_return cfg.factor cfg.max_giveaway amount < U64) :
    expected_return cfg amount =
      exact_expected_return cfg.factor cfg.max_giveaway amount := by
  have hsub : sub64 cfg.factor 1 = cfg.factor - 1 := by
    unfold sub64 wrap64
    rw [Nat.mod_eq_of_lt h2, Nat.mod_eq_of_lt (show (1 : Nat) < U64 by norm_num [U64])]
    have he : cfg.factor + U64 - 1 = (cfg.factor - 1) + U64 := by
      have : 0 < U64 := by norm_num [U64]
      omega
    rw [he, Nat.add_mod_right]
    exact Nat.mod_eq_of_lt (by omega)
  unfold exact_expected_return at h3
  unfold expected_return exact_expected_return
  split_ifs at h3 ⊢ with hm
  · rw [hsub]
    have hmul : cfg.max_giveaway * (cfg.factor - 1) < U64 :=
      Nat.lt_of_le_of_lt (Nat.le_add_left _ _) h3
    unfold add64 mul64 wrap64
    rw [Nat.mod_eq_of_lt hmul, Nat.mod_eq_of_lt h3]
  · unfold mul64 wrap64
    exact Nat.mod_eq_of_lt h3

/-- Witness for C9 (amended): at the in-range input factor = 3,
max_giveaway = 10, amount = 17 the u64 computation agrees with the exact
value (both are 37). -/
theorem claim9_widening_exact_witness :
    expected_return { factor := 3, max_giveaway := 10 } 17 =
      exact_expected_return 3 10 17 :=
  claim9_widening_exact { factor := 3, max_giveaway := 10 } 17
    (by decide) (by norm_num [U64]) (by norm_num [exact_expected_return, U64])

end Giveaway
